import Mathlib

/-!
Verification of the connection bootstrap-and-retry contract of
nest-typeorm-i18n (src/lib/typeorm-core.module.ts, createConnectionFactory),
against the repository's design document.

The embedding models the fields of TypeOrmModuleOptions consumed by
createConnectionFactory, the typeorm connection-manager registry consulted
by the keep-alive fast path, and the deferred connection attempt piped
through the retry operator.  Connector outcomes are given call-by-call
(createI18nConnection's result on the i-th attempt); a run produces an
observable trace of connector calls, waits and log lines, plus the final
result.  The retry operator itself (handleRetry, from
src/lib/common/typeorm.utils.ts) is not part of the provided sources and is
modelled from the design document.
-/

namespace NestTypeormI18n

/-- Error type of the bootstrap contract: a terminal connection failure
wrapping the last underlying failure from the database client. -/
structure ConnectionError (E : Type) where
  cause : E
deriving DecidableEq, Repr

/-- The fields of TypeOrmModuleOptions consumed by createConnectionFactory
(src/lib/typeorm-core.module.ts): connection type, connection name, entity
list, autoLoadEntities, the retry parameters and the keep-alive flag.
An absent optional field is `none`. -/
structure TypeOrmModuleOptions (Entity : Type) where
  type : Option String
  name : Option String
  entities : Option (List Entity)
  autoLoadEntities : Bool
  retryAttempts : Option Nat
  retryDelay : Nat
  verboseRetryLog : Bool
  keepConnectionAlive : Bool
deriving DecidableEq, Repr

/-- Modelled from the spec: the default typeorm connection name used by
getConnectionName (src/lib/common/typeorm.utils.ts, not under the provided
sources): unnamed connections use the name "default". -/
def DEFAULT_CONNECTION_NAME : String := "default"

/-- Modelled from the spec: getConnectionName
(src/lib/common/typeorm.utils.ts, not under the provided sources): the
connection's configured name, or the default name when unset. -/
def getConnectionName {Entity : Type} (options : TypeOrmModuleOptions Entity) : String :=
  options.name.getD DEFAULT_CONNECTION_NAME

/-- Equality of Except values is decidable when both component types have
decidable equality (needed to evaluate runs on concrete inputs). -/
instance {ε α : Type} [DecidableEq ε] [DecidableEq α] : DecidableEq (Except ε α) := fun a b =>
  match a, b with
  | Except.ok x, Except.ok y =>
    if h : x = y then isTrue (by rw [h]) else isFalse (by intro hc; cases hc; exact h rfl)
  | Except.ok _, Except.error _ => isFalse (by intro hc; cases hc)
  | Except.error _, Except.ok _ => isFalse (by intro hc; cases hc)
  | Except.error x, Except.error y =>
    if h : x = y then isTrue (by rw [h]) else isFalse (by intro hc; cases hc; exact h rfl)

/-- A connection registered in the typeorm connection manager: its handle
and its isConnected flag.  Consulting the flag is an effectful access that
may throw (property getter), hence Except. -/
structure RegisteredConnection (C E : Type) where
  handle : C
  isConnected : Except E Bool
deriving DecidableEq, Repr

/-- The typeorm connection-manager registry consulted by the keep-alive
fast path: has(name) and get(name), each of which may throw. -/
structure ConnectionManager (C E : Type) where
  has : String → Except E Bool
  get : String → Except E (RegisteredConnection C E)

/-- The keep-alive fast path of createConnectionFactory
(src/lib/typeorm-core.module.ts lines 162-173): inside a try/catch whose
catch block is empty, if keepConnectionAlive is set, the manager has the
connection name, and the registered connection isConnected, the registered
handle is returned; any error thrown while consulting the registry is
swallowed.  `some c` means the fast path produced a connection, `none`
means execution falls through to the connection attempt. -/
def fastPath {Entity C E : Type} (options : TypeOrmModuleOptions Entity)
    (manager : ConnectionManager C E) : Option C :=
  let attempt : Except E (Option C) :=
    if options.keepConnectionAlive then do
      let connectionName := getConnectionName options
      let h ← manager.has connectionName
      if h then do
        let connection ← manager.get connectionName
        let ic ← connection.isConnected
        if ic then pure (some connection.handle) else pure none
      else
        pure none
    else
      pure none
  match attempt with
  | Except.ok r => r
  | Except.error _ => none

/-- The argument with which each deferred connection attempt invokes
createI18nConnection (src/lib/typeorm-core.module.ts lines 176-198):
`none` stands for a call with no argument (taken when options.type is
unset); otherwise the options are forwarded unchanged when
autoLoadEntities is off, and with the entity list extended by the entities
registered for the connection token when it is on.
`storedEntities` stands for
EntitiesMetadataStorage.getEntitiesByConnection
(src/lib/entities-metadata.storage.ts, not under the provided sources),
keyed by connection token. -/
def connectionAttemptArg {Entity : Type} (options : TypeOrmModuleOptions Entity)
    (storedEntities : String → List Entity) : Option (TypeOrmModuleOptions Entity) :=
  if options.type.isNone then
    none
  else if !options.autoLoadEntities then
    some options
  else
    let connectionToken := getConnectionName options
    let entities :=
      match options.entities with
      | some es => es ++ storedEntities connectionToken
      | none => storedEntities connectionToken
    some { options with entities := some entities }

/-- An observable event of a bootstrap run: a connector call (attempt
number and the argument it was invoked with), a timed wait, or a log line
(connection name, attempt number, and the failure detail exactly when the
verbose flag is set). -/
inductive RetryEvent (A E : Type) where
  | call (attempt : Nat) (arg : A)
  | wait (ms : Nat)
  | log (connectionName : String) (attempt : Nat) (verboseDetail : Option E)
deriving DecidableEq, Repr

/-- Attempt numbers of the connector calls in a trace, in order. -/
def callEvents {A E : Type} : List (RetryEvent A E) → List Nat :=
  List.filterMap fun ev =>
    match ev with
    | RetryEvent.call i _ => some i
    | _ => none

/-- Arguments of the connector calls in a trace, in order. -/
def callArgs {A E : Type} : List (RetryEvent A E) → List A :=
  List.filterMap fun ev =>
    match ev with
    | RetryEvent.call _ a => some a
    | _ => none

/-- Durations of the waits in a trace, in order. -/
def waitEvents {A E : Type} : List (RetryEvent A E) → List Nat :=
  List.filterMap fun ev =>
    match ev with
    | RetryEvent.wait d => some d
    | _ => none

/-- Modelled from the spec: the maximum-attempts policy of the retry
operator (handleRetry, src/lib/common/typeorm.utils.ts, not under the
provided sources): a value of zero or unset means retry indefinitely.
The result encodes the attempt budget, with 0 standing for unlimited. -/
def effectiveRetryAttempts : Option Nat → Nat
  | none => 0
  | some n => n

/-- Modelled from the spec: handleRetry
(src/lib/common/typeorm.utils.ts, not under the provided sources), the
bootstrap retry loop: attempt the connection; on failure, if the number of
attempts made is below the configured maximum (or the maximum is
unlimited, encoded as retryAttempts = 0), wait the configured delay, emit
a log line naming the connection and the attempt count (with the failure
detail exactly when the verbose flag is set), and retry; on reaching the
maximum without success, surface the last failure as a ConnectionError.
Attempts are numbered from 1; `connector i` is the outcome of the i-th
call; `arg` is the argument every call is invoked with.  `fuel` bounds how
many attempts this fueled interpreter may explore: `none` means the loop
is still running after `fuel` attempts. -/
def handleRetry {A C E : Type} (retryAttempts retryDelay : Nat) (connectionName : String)
    (verboseRetryLog : Bool) (connector : Nat → Except E C) (arg : A) :
    Nat → Nat → Option (List (RetryEvent A E) × Except (ConnectionError E) C)
  | 0, _ => none
  | fuel + 1, i =>
    match connector i with
    | Except.ok c => some ([RetryEvent.call i arg], Except.ok c)
    | Except.error e =>
      if retryAttempts ≠ 0 ∧ retryAttempts ≤ i then
        some ([RetryEvent.call i arg], Except.error ⟨e⟩)
      else
        match handleRetry retryAttempts retryDelay connectionName verboseRetryLog
            connector arg fuel (i + 1) with
        | none => none
        | some (events, result) =>
          some (RetryEvent.call i arg :: RetryEvent.wait retryDelay ::
            RetryEvent.log connectionName i (if verboseRetryLog then some e else none) ::
            events, result)

/-- createConnectionFactory (src/lib/typeorm-core.module.ts lines
159-208): the keep-alive fast path, then the deferred connection attempt
piped through the retry operator.  A fast-path hit returns the registered
handle with an empty trace (the connector is never invoked); otherwise the
retry loop runs from attempt 1 with the configured retry parameters,
invoking the connector with the argument built from the options. -/
def establish {Entity C E : Type} (options : TypeOrmModuleOptions Entity)
    (manager : ConnectionManager C E) (storedEntities : String → List Entity)
    (connector : Nat → Except E C) (fuel : Nat) :
    Option (List (RetryEvent (Option (TypeOrmModuleOptions Entity)) E) ×
      Except (ConnectionError E) C) :=
  match fastPath options manager with
  | some connection => some ([], Except.ok connection)
  | none =>
    handleRetry (effectiveRetryAttempts options.retryAttempts) options.retryDelay
      (getConnectionName options) options.verboseRetryLog
      connector (connectionAttemptArg options storedEntities) fuel 1

section Projections

variable {A E : Type}

@[simp]
lemma callEvents_nil : callEvents ([] : List (RetryEvent A E)) = [] := rfl

@[simp]
lemma callEvents_cons_call (i : Nat) (a : A) (l : List (RetryEvent A E)) :
    callEvents (RetryEvent.call i a :: l) = i :: callEvents l := rfl

@[simp]
lemma callEvents_cons_wait (d : Nat) (l : List (RetryEvent A E)) :
    callEvents (RetryEvent.wait d :: l) = callEvents l := rfl

@[simp]
lemma callEvents_cons_log (nm : String) (i : Nat) (det : Option E) (l : List (RetryEvent A E)) :
    callEvents (RetryEvent.log nm i det :: l) = callEvents l := rfl

@[simp]
lemma callArgs_nil : callArgs ([] : List (RetryEvent A E)) = [] := rfl

@[simp]
lemma callArgs_cons_call (i : Nat) (a : A) (l : List (RetryEvent A E)) :
    callArgs (RetryEvent.call i a :: l) = a :: callArgs l := rfl

@[simp]
lemma callArgs_cons_wait (d : Nat) (l : List (RetryEvent A E)) :
    callArgs (RetryEvent.wait d :: l) = callArgs l := rfl

@[simp]
lemma callArgs_cons_log (nm : String) (i : Nat) (det : Option E) (l : List (RetryEvent A E)) :
    callArgs (RetryEvent.log nm i det :: l) = callArgs l := rfl

@[simp]
lemma waitEvents_nil : waitEvents ([] : List (RetryEvent A E)) = [] := rfl

@[simp]
lemma waitEvents_cons_call (i : Nat) (a : A) (l : List (RetryEvent A E)) :
    waitEvents (RetryEvent.call i a :: l) = waitEvents l := rfl

@[simp]
lemma waitEvents_cons_wait (d : Nat) (l : List (RetryEvent A E)) :
    waitEvents (RetryEvent.wait d :: l) = d :: waitEvents l := rfl

@[simp]
lemma waitEvents_cons_log (nm : String) (i : Nat) (det : Option E) (l : List (RetryEvent A E)) :
    waitEvents (RetryEvent.log nm i det :: l) = waitEvents l := rfl

end Projections

section RetryLemmas

variable {A C E : Type}

/-- A completed retry run opens with a connector call at its starting
attempt number, invoked with the configured argument. -/
lemma handleRetry_head (N d : Nat) (nm : String) (v : Bool)
    (connector : Nat → Except E C) (a : A) :
    ∀ fuel i evs r, handleRetry N d nm v connector a fuel i = some (evs, r) →
      ∃ rest, evs = RetryEvent.call i a :: rest := by
  intro fuel i evs r h
  cases fuel with
  | zero => simp [handleRetry] at h
  | succ f =>
    rw [handleRetry] at h
    cases hc : connector i with
    | ok c =>
      rw [hc] at h
      injection h with h
      injection h with h1 _
      exact ⟨[], h1.symm⟩
    | error e =>
      rw [hc] at h
      dsimp only at h
      by_cases hb : N ≠ 0 ∧ N ≤ i
      · rw [if_pos hb] at h
        injection h with h
        injection h with h1 _
        exact ⟨[], h1.symm⟩
      · rw [if_neg hb] at h
        cases hrec : handleRetry N d nm v connector a f (i + 1) with
        | none => rw [hrec] at h; cases h
        | some p =>
          rw [hrec] at h
          injection h with h
          injection h with h1 _
          exact ⟨_, h1.symm⟩

/-- Structure of every completed retry run starting at attempt i: the
connector is called at exactly the attempts i, i+1, ..., m for some final
attempt m, and the run's result is determined by the m-th call: the
connection it returned on success, or a ConnectionError wrapping exactly
the failure it raised. -/
lemma handleRetry_sound (N d : Nat) (nm : String) (v : Bool)
    (connector : Nat → Except E C) (a : A) :
    ∀ fuel i evs r, handleRetry N d nm v connector a fuel i = some (evs, r) →
      ∃ m, i ≤ m ∧ callEvents evs = List.range' i (m - i + 1) ∧
        ((∃ c, r = Except.ok c ∧ connector m = Except.ok c) ∨
         (∃ e, r = Except.error ⟨e⟩ ∧ connector m = Except.error e)) := by
  intro fuel
  induction fuel with
  | zero => intro i evs r h; simp [handleRetry] at h
  | succ f ih =>
    intro i evs r h
    rw [handleRetry] at h
    cases hc : connector i with
    | ok c =>
      rw [hc] at h
      injection h with h
      injection h with h1 h2
      refine ⟨i, le_refl i, ?_, Or.inl ⟨c, h2.symm, hc⟩⟩
      rw [← h1]
      simp [List.range'_succ]
    | error e =>
      rw [hc] at h
      dsimp only at h
      by_cases hb : N ≠ 0 ∧ N ≤ i
      · rw [if_pos hb] at h
        injection h with h
        injection h with h1 h2
        refine ⟨i, le_refl i, ?_, Or.inr ⟨e, h2.symm, hc⟩⟩
        rw [← h1]
        simp [List.range'_succ]
      · rw [if_neg hb] at h
        cases hrec : handleRetry N d nm v connector a f (i + 1) with
        | none => rw [hrec] at h; cases h
        | some p =>
          rw [hrec] at h
          obtain ⟨evs1, r1⟩ := p
          injection h with h
          injection h with h1 h2
          obtain ⟨m, hm, hcalls, hres⟩ := ih (i + 1) evs1 r1 hrec
          refine ⟨m, by omega, ?_, by rw [← h2]; exact hres⟩
          rw [← h1]
          simp only [callEvents_cons_call, callEvents_cons_wait, callEvents_cons_log, hcalls]
          have hn : m - i + 1 = (m - (i + 1) + 1) + 1 := by omega
          rw [hn]
          simp [List.range'_succ]

/-- With a bounded budget N ≥ 1, a connector failing at every attempt, and
fuel beyond the remaining budget, the retry run starting at attempt i ≤ N
calls the connector at exactly attempts i..N, waits the configured delay
between consecutive attempts, and fails with a ConnectionError wrapping the
N-th (last) failure. -/
lemma handleRetry_allFail (N d : Nat) (nm : String) (v : Bool)
    (connector : Nat → Except E C) (a : A) (err : Nat → E)
    (hfail : ∀ j, connector j = Except.error (err j)) :
    ∀ fuel i, 1 ≤ N → i ≤ N → N - i < fuel →
      ∃ evs, handleRetry N d nm v connector a fuel i = some (evs, Except.error ⟨err N⟩) ∧
        callEvents evs = List.range' i (N - i + 1) ∧
        waitEvents evs = List.replicate (N - i) d := by
  intro fuel
  induction fuel with
  | zero => intro i h1 h2 h3; omega
  | succ f ih =>
    intro i hN hiN hfuel
    rw [handleRetry, hfail i]
    dsimp only
    by_cases hb : N ≠ 0 ∧ N ≤ i
    · have hiN2 : i = N := by omega
      subst hiN2
      rw [if_pos hb]
      refine ⟨_, rfl, ?_, ?_⟩
      · simp [Nat.sub_self, List.range'_succ]
      · simp [Nat.sub_self]
    · have hlt : i < N := by omega
      rw [if_neg hb]
      obtain ⟨evs1, hrec, hcalls, hwaits⟩ := ih (i + 1) hN (by omega) (by omega)
      rw [hrec]
      dsimp only
      refine ⟨_, rfl, ?_, ?_⟩
      · simp only [callEvents_cons_call, callEvents_cons_wait, callEvents_cons_log, hcalls]
        have hn : N - i + 1 = (N - (i + 1) + 1) + 1 := by omega
        rw [hn]
        simp [List.range'_succ]
      · simp only [waitEvents_cons_call, waitEvents_cons_wait, waitEvents_cons_log, hwaits]
        have hn : N - i = (N - (i + 1)) + 1 := by omega
        rw [hn, List.replicate_succ]

/-- With a connector that fails strictly before attempt k and succeeds at
attempt k, a budget that is unlimited (N = 0) or at least k, and fuel
beyond the remaining distance, the retry run starting at attempt i ≤ k
calls the connector at exactly attempts i..k (none after the k-th), waits
the configured delay between consecutive attempts, and resolves with the
connection of the k-th call. -/
lemma handleRetry_succeeds (N d : Nat) (nm : String) (v : Bool)
    (connector : Nat → Except E C) (a : A) (k : Nat) (c : C)
    (hk : connector k = Except.ok c)
    (hbefore : ∀ j, 1 ≤ j → j < k → ∃ e, connector j = Except.error e)
    (hbudget : N = 0 ∨ k ≤ N) :
    ∀ fuel i, 1 ≤ i → i ≤ k → k - i < fuel →
      ∃ evs, handleRetry N d nm v connector a fuel i = some (evs, Except.ok c) ∧
        callEvents evs = List.range' i (k - i + 1) ∧
        waitEvents evs = List.replicate (k - i) d := by
  intro fuel
  induction fuel with
  | zero => intro i h1 h2 h3; omega
  | succ f ih =>
    intro i hi1 hik hfuel
    by_cases heq : i = k
    · subst heq
      rw [handleRetry, hk]
      dsimp only
      refine ⟨_, rfl, ?_, ?_⟩
      · simp [Nat.sub_self, List.range'_succ]
      · simp [Nat.sub_self]
    · have hlt : i < k := by omega
      obtain ⟨e, he⟩ := hbefore i hi1 hlt
      rw [handleRetry, he]
      dsimp only
      have hb : ¬(N ≠ 0 ∧ N ≤ i) := by
        rcases hbudget with h0 | hkN
        · simp [h0]
        · intro hcontra; omega
      rw [if_neg hb]
      obtain ⟨evs1, hrec, hcalls, hwaits⟩ := ih (i + 1) (by omega) (by omega) (by omega)
      rw [hrec]
      dsimp only
      refine ⟨_, rfl, ?_, ?_⟩
      · simp only [callEvents_cons_call, callEvents_cons_wait, callEvents_cons_log, hcalls]
        have hn : k - i + 1 = (k - (i + 1) + 1) + 1 := by omega
        rw [hn]
        simp [List.range'_succ]
      · simp only [waitEvents_cons_call, waitEvents_cons_wait, waitEvents_cons_log, hwaits]
        have hn : k - i = (k - (i + 1)) + 1 := by omega
        rw [hn, List.replicate_succ]

/-- With an unlimited budget (encoded 0) and a connector that fails at
every attempt, the fueled retry run never completes, whatever the fuel:
the loop never gives up and never surfaces an error. -/
lemma handleRetry_unlimited_allFail (d : Nat) (nm : String) (v : Bool)
    (connector : Nat → Except E C) (a : A)
    (hfail : ∀ j, ∃ e, connector j = Except.error e) :
    ∀ fuel i, handleRetry 0 d nm v connector a fuel i = (none : Option (List (RetryEvent A E) × Except (ConnectionError E) C)) := by
  intro fuel
  induction fuel with
  | zero => intro i; rfl
  | succ f ih =>
    intro i
    obtain ⟨e, he⟩ := hfail i
    rw [handleRetry, he]
    dsimp only
    rw [if_neg (by simp)]
    rw [ih (i + 1)]

/-- Every connector call of a completed retry run is invoked with the
configured argument. -/
lemma handleRetry_callArgs (N d : Nat) (nm : String) (v : Bool)
    (connector : Nat → Except E C) (a : A) :
    ∀ fuel i evs r, handleRetry N d nm v connector a fuel i = some (evs, r) →
      ∀ x ∈ callArgs evs, x = a := by
  intro fuel
  induction fuel with
  | zero => intro i evs r h; simp [handleRetry] at h
  | succ f ih =>
    intro i evs r h
    rw [handleRetry] at h
    cases hc : connector i with
    | ok c =>
      rw [hc] at h
      injection h with h
      injection h with h1 h2
      subst h1
      intro x hx
      simp at hx
      exact hx
    | error e =>
      rw [hc] at h
      dsimp only at h
      by_cases hb : N ≠ 0 ∧ N ≤ i
      · rw [if_pos hb] at h
        injection h with h
        injection h with h1 h2
        subst h1
        intro x hx
        simp at hx
        exact hx
      · rw [if_neg hb] at h
        cases hrec : handleRetry N d nm v connector a f (i + 1) with
        | none => rw [hrec] at h; cases h
        | some p =>
          rw [hrec] at h
          obtain ⟨evs1, r1⟩ := p
          injection h with h
          injection h with h1 h2
          subst h1
          intro x hx
          simp at hx
          rcases hx with hx | hx
          · exact hx
          · exact ih (i + 1) evs1 r1 hrec x hx

/-- The verbose flag and the call argument influence only the content of
trace events, never control flow: two retry runs differing only in them
have identical call attempt numbers, identical waits and identical
results. -/
lemma handleRetry_observables (N d : Nat) (nm : String)
    (connector : Nat → Except E C) (v1 v2 : Bool) (a1 a2 : A) :
    ∀ fuel i,
      (handleRetry N d nm v1 connector a1 fuel i).map
        (fun p => (callEvents p.1, waitEvents p.1, p.2)) =
      (handleRetry N d nm v2 connector a2 fuel i).map
        (fun p => (callEvents p.1, waitEvents p.1, p.2)) := by
  intro fuel
  induction fuel with
  | zero => intro i; rfl
  | succ f ih =>
    intro i
    rw [handleRetry]
    rw [show handleRetry N d nm v2 connector a2 (f + 1) i =
      match connector i with
      | Except.ok c => some ([RetryEvent.call i a2], Except.ok c)
      | Except.error e =>
        if N ≠ 0 ∧ N ≤ i then
          some ([RetryEvent.call i a2], Except.error ⟨e⟩)
        else
          match handleRetry N d nm v2 connector a2 f (i + 1) with
          | none => none
          | some (events, result) =>
            some (RetryEvent.call i a2 :: RetryEvent.wait d ::
              RetryEvent.log nm i (if v2 then some e else none) :: events, result)
      from rfl]
    cases hc : connector i with
    | ok c => dsimp only; simp
    | error e =>
      dsimp only
      by_cases hb : N ≠ 0 ∧ N ≤ i
      · rw [if_pos hb, if_pos hb]
        simp
      · rw [if_neg hb, if_neg hb]
        have hobs := ih (i + 1)
        cases h1 : handleRetry N d nm v1 connector a1 f (i + 1) with
        | none =>
          cases h2 : handleRetry N d nm v2 connector a2 f (i + 1) with
          | none => rfl
          | some q => rw [h1, h2] at hobs; simp at hobs
        | some p =>
          cases h2 : handleRetry N d nm v2 connector a2 f (i + 1) with
          | none => rw [h1, h2] at hobs; simp at hobs
          | some q =>
            rw [h1, h2] at hobs
            obtain ⟨evs1, r1⟩ := p
            obtain ⟨evs2, r2⟩ := q
            simp at hobs
            dsimp only
            simp [hobs.1, hobs.2.1, hobs.2.2]

end RetryLemmas

section FastPathLemmas

variable {Entity C E : Type}

@[simp]
lemma except_ok_bind {ε α β : Type} (a : α) (f : α → Except ε β) :
    (Except.ok a : Except ε α) >>= f = f a := rfl

@[simp]
lemma except_error_bind {ε α β : Type} (e : ε) (f : α → Except ε β) :
    (Except.error e : Except ε α) >>= f = Except.error e := rfl

@[simp]
lemma except_pure_eq {ε α : Type} (a : α) : (pure a : Except ε α) = Except.ok a := rfl

/-- Without the keep-alive flag the fast path is skipped. -/
lemma fastPath_of_not_keepAlive (options : TypeOrmModuleOptions Entity)
    (manager : ConnectionManager C E) (hka : options.keepConnectionAlive = false) :
    fastPath options manager = none := by
  simp only [fastPath, hka]
  rfl

/-- When the fast path produces nothing, createConnectionFactory is the
retry loop over the deferred connection attempt, run from attempt 1 with
the configured retry parameters and the connection argument built from the
options. -/
lemma establish_of_fastPath_none (options : TypeOrmModuleOptions Entity)
    (manager : ConnectionManager C E) (storedEntities : String → List Entity)
    (connector : Nat → Except E C) (fuel : Nat)
    (h : fastPath options manager = none) :
    establish options manager storedEntities connector fuel =
      handleRetry (effectiveRetryAttempts options.retryAttempts) options.retryDelay
        (getConnectionName options) options.verboseRetryLog connector
        (connectionAttemptArg options storedEntities) fuel 1 := by
  rw [establish, h]

end FastPathLemmas

section ClaimTheorems

variable {Entity C E : Type}

/-- C1: for every configuration with retry attempts N > 0 and a connector
that fails on every call, establish makes exactly N connection attempts
(attempts 1..N), waiting the configured delay between consecutive
attempts, and then fails with a ConnectionError wrapping the failure from
the last (N-th) attempt; no failure from an earlier attempt is surfaced to
the caller. -/
theorem establish_bounded_retry_exhaustion
    (options : TypeOrmModuleOptions Entity) (manager : ConnectionManager C E)
    (storedEntities : String → List Entity) (connector : Nat → Except E C)
    (N : Nat) (err : Nat → E)
    (hN : options.retryAttempts = some N) (hpos : 1 ≤ N)
    (hka : options.keepConnectionAlive = false)
    (hfail : ∀ j, connector j = Except.error (err j))
    (fuel : Nat) (hfuel : N ≤ fuel) :
    ∃ evs, establish options manager storedEntities connector fuel =
        some (evs, Except.error ⟨err N⟩) ∧
      callEvents evs = List.range' 1 N ∧
      waitEvents evs = List.replicate (N - 1) options.retryDelay := by
  rw [establish_of_fastPath_none options manager storedEntities connector fuel
    (fastPath_of_not_keepAlive options manager hka), hN]
  simp only [effectiveRetryAttempts]
  obtain ⟨evs, hrun, hcalls, hwaits⟩ := handleRetry_allFail N options.retryDelay
    (getConnectionName options) options.verboseRetryLog connector
    (connectionAttemptArg options storedEntities) err hfail fuel 1 hpos hpos (by omega)
  refine ⟨evs, hrun, ?_, hwaits⟩
  rw [hcalls]
  congr 1
  omega

/-- C2: a maximum-attempts value of zero or left unset means retry
indefinitely: with a connector that always fails the run never completes
(it never gives up and never surfaces an error, for any fuel), and with a
connector that eventually succeeds on attempt k it resolves with that
connection; zero and unset are covered by one and the same hypothesis and
behave identically. -/
theorem establish_unlimited_retries
    (options : TypeOrmModuleOptions Entity) (manager : ConnectionManager C E)
    (storedEntities : String → List Entity) (connector : Nat → Except E C)
    (hra : options.retryAttempts = none ∨ options.retryAttempts = some 0)
    (hka : options.keepConnectionAlive = false) :
    ((∀ j, ∃ e, connector j = Except.error e) →
      ∀ fuel, establish options manager storedEntities connector fuel = none) ∧
    (∀ k c, 1 ≤ k → connector k = Except.ok c →
      (∀ j, 1 ≤ j → j < k → ∃ e, connector j = Except.error e) →
      ∀ fuel, k ≤ fuel →
        ∃ evs, establish options manager storedEntities connector fuel =
          some (evs, Except.ok c)) := by
  have hefa : effectiveRetryAttempts options.retryAttempts = 0 := by
    rcases hra with h | h <;> simp [h, effectiveRetryAttempts]
  constructor
  · intro hfail fuel
    rw [establish_of_fastPath_none options manager storedEntities connector fuel
      (fastPath_of_not_keepAlive options manager hka), hefa]
    exact handleRetry_unlimited_allFail options.retryDelay (getConnectionName options)
      options.verboseRetryLog connector (connectionAttemptArg options storedEntities)
      hfail fuel 1
  · intro k c hk1 hk hbefore fuel hfuel
    rw [establish_of_fastPath_none options manager storedEntities connector fuel
      (fastPath_of_not_keepAlive options manager hka), hefa]
    obtain ⟨evs, hrun, _, _⟩ := handleRetry_succeeds 0 options.retryDelay
      (getConnectionName options) options.verboseRetryLog connector
      (connectionAttemptArg options storedEntities) k c hk hbefore (Or.inl rfl)
      fuel 1 (le_refl 1) hk1 (by omega)
    exact ⟨evs, hrun⟩

/-- C3: with keep-alive requested, when the connection manager has the
configured connection name and the registered connection reports itself
connected, establish returns that registered handle immediately with an
empty trace: the connector is never invoked. -/
theorem establish_keepAlive_fast_path
    (options : TypeOrmModuleOptions Entity) (manager : ConnectionManager C E)
    (storedEntities : String → List Entity) (connector : Nat → Except E C)
    (fuel : Nat) (rc : RegisteredConnection C E)
    (hka : options.keepConnectionAlive = true)
    (hhas : manager.has (getConnectionName options) = Except.ok true)
    (hget : manager.get (getConnectionName options) = Except.ok rc)
    (hconn : rc.isConnected = Except.ok true) :
    establish options manager storedEntities connector fuel =
      some ([], Except.ok rc.handle) := by
  have hfp : fastPath options manager = some rc.handle := by
    simp [fastPath, hka, hhas, hget, hconn]
  rw [establish, hfp]

/-- C5: with an unlimited attempt budget (zero or unset) and a connector
that fails on every attempt before k and succeeds on the k-th, establish
resolves with the connection obtained on the k-th attempt, and its calls
are exactly attempts 1..k: no connector call is made after the k-th. -/
theorem establish_unlimited_succeeds_kth
    (options : TypeOrmModuleOptions Entity) (manager : ConnectionManager C E)
    (storedEntities : String → List Entity) (connector : Nat → Except E C)
    (hra : options.retryAttempts = none ∨ options.retryAttempts = some 0)
    (hka : options.keepConnectionAlive = false)
    (k : Nat) (c : C) (hk1 : 1 ≤ k) (hk : connector k = Except.ok c)
    (hbefore : ∀ j, 1 ≤ j → j < k → ∃ e, connector j = Except.error e)
    (fuel : Nat) (hfuel : k ≤ fuel) :
    ∃ evs, establish options manager storedEntities connector fuel =
        some (evs, Except.ok c) ∧
      callEvents evs = List.range' 1 k := by
  have hefa : effectiveRetryAttempts options.retryAttempts = 0 := by
    rcases hra with h | h <;> simp [h, effectiveRetryAttempts]
  rw [establish_of_fastPath_none options manager storedEntities connector fuel
    (fastPath_of_not_keepAlive options manager hka), hefa]
  obtain ⟨evs, hrun, hcalls, _⟩ := handleRetry_succeeds 0 options.retryDelay
    (getConnectionName options) options.verboseRetryLog connector
    (connectionAttemptArg options storedEntities) k c hk hbefore (Or.inl rfl)
    fuel 1 (le_refl 1) hk1 (by omega)
  refine ⟨evs, hrun, ?_⟩
  rw [hcalls]
  congr 1
  omega

/-- C7: establish is all-or-nothing: a completed run either resolves with
a connection that is genuinely open (the registry's open connection from
the fast path, or one actually returned by a successful connector call),
or fails with a single ConnectionError wrapping the failure raised by the
last connector call (the greatest attempt number in the trace); no other
result shape exists. -/
theorem establish_all_or_nothing
    (options : TypeOrmModuleOptions Entity) (manager : ConnectionManager C E)
    (storedEntities : String → List Entity) (connector : Nat → Except E C)
    (fuel : Nat) (evs : List (RetryEvent (Option (TypeOrmModuleOptions Entity)) E))
    (r : Except (ConnectionError E) C)
    (h : establish options manager storedEntities connector fuel = some (evs, r)) :
    (∃ c, r = Except.ok c ∧
      (fastPath options manager = some c ∨
        ∃ i, i ∈ callEvents evs ∧ connector i = Except.ok c)) ∨
    (∃ e m, r = Except.error ⟨e⟩ ∧ m ∈ callEvents evs ∧
      (∀ j ∈ callEvents evs, j ≤ m) ∧ connector m = Except.error e) := by
  rw [establish] at h
  cases hfp : fastPath options manager with
  | some c =>
    rw [hfp] at h
    dsimp only at h
    injection h with h
    injection h with h1 h2
    exact Or.inl ⟨c, h2.symm, Or.inl rfl⟩
  | none =>
    rw [hfp] at h
    dsimp only at h
    obtain ⟨m, hm, hcalls, hres⟩ := handleRetry_sound
      (effectiveRetryAttempts options.retryAttempts) options.retryDelay
      (getConnectionName options) options.verboseRetryLog connector
      (connectionAttemptArg options storedEntities) fuel 1 evs r h
    rcases hres with ⟨c, hr, hc⟩ | ⟨e, hr, hc⟩
    · refine Or.inl ⟨c, hr, Or.inr ⟨m, ?_, hc⟩⟩
      rw [hcalls]
      simp only [List.mem_range']
      exact ⟨m - 1, by omega, by omega⟩
    · refine Or.inr ⟨e, m, hr, ?_, ?_, hc⟩
      · rw [hcalls]
        simp only [List.mem_range']
        exact ⟨m - 1, by omega, by omega⟩
      · intro j hj
        rw [hcalls] at hj
        simp only [List.mem_range'] at hj
        obtain ⟨i, hi1, hi2⟩ := hj
        omega

/-- C9: with keep-alive requested, when the manager has the configured
connection name but the registered connection reports itself not
connected, the stale handle is not returned: the fast path yields
nothing, establish is exactly the retry loop, and any completed run opens
with a connector call at attempt 1 carrying the freshly built connection
argument. -/
theorem establish_stale_connection_skips_fast_path
    (options : TypeOrmModuleOptions Entity) (manager : ConnectionManager C E)
    (storedEntities : String → List Entity) (connector : Nat → Except E C)
    (fuel : Nat) (rc : RegisteredConnection C E)
    (hka : options.keepConnectionAlive = true)
    (hhas : manager.has (getConnectionName options) = Except.ok true)
    (hget : manager.get (getConnectionName options) = Except.ok rc)
    (hconn : rc.isConnected = Except.ok false) :
    fastPath options manager = none ∧
    establish options manager storedEntities connector fuel =
      handleRetry (effectiveRetryAttempts options.retryAttempts) options.retryDelay
        (getConnectionName options) options.verboseRetryLog connector
        (connectionAttemptArg options storedEntities) fuel 1 ∧
    (∀ evs r, establish options manager storedEntities connector fuel = some (evs, r) →
      ∃ rest, evs = RetryEvent.call 1 (connectionAttemptArg options storedEntities) :: rest) := by
  have hfp : fastPath options manager = none := by
    simp [fastPath, hka, hhas, hget, hconn]
  refine ⟨hfp, establish_of_fastPath_none options manager storedEntities connector fuel hfp, ?_⟩
  intro evs r h
  rw [establish_of_fastPath_none options manager storedEntities connector fuel hfp] at h
  exact handleRetry_head _ _ _ _ _ _ fuel 1 evs r h

/-- C10: with keep-alive requested, an error thrown while consulting the
registry during the fast-path check (by has, by get, or by the isConnected
access) is swallowed: the fast path yields nothing, no error reaches the
caller, and establish proceeds as the retry loop exactly as if no open
connection had been found. -/
theorem establish_swallows_registry_errors
    (options : TypeOrmModuleOptions Entity) (manager : ConnectionManager C E)
    (storedEntities : String → List Entity) (connector : Nat → Except E C)
    (fuel : Nat)
    (hka : options.keepConnectionAlive = true)
    (hthrow :
      (∃ e, manager.has (getConnectionName options) = Except.error e) ∨
      (∃ e, manager.has (getConnectionName options) = Except.ok true ∧
        manager.get (getConnectionName options) = Except.error e) ∨
      (∃ e rc, manager.has (getConnectionName options) = Except.ok true ∧
        manager.get (getConnectionName options) = Except.ok rc ∧
        rc.isConnected = Except.error e)) :
    fastPath options manager = none ∧
    establish options manager storedEntities connector fuel =
      handleRetry (effectiveRetryAttempts options.retryAttempts) options.retryDelay
        (getConnectionName options) options.verboseRetryLog connector
        (connectionAttemptArg options storedEntities) fuel 1 := by
  have hfp : fastPath options manager = none := by
    rcases hthrow with ⟨e, he⟩ | ⟨e, hh, he⟩ | ⟨e, rc, hh, hg, he⟩
    · simp [fastPath, hka, he]
    · simp [fastPath, hka, hh, he]
    · simp [fastPath, hka, hh, hg, he]
  exact ⟨hfp, establish_of_fastPath_none options manager storedEntities connector fuel hfp⟩

/-- C6: two runs of establish that differ only in the verbose-retry-log
flag produce the identical final outcome: the same result (returned
connection or surfaced error), the same connector call attempt numbers
(hence the same number of connector calls) and the same waits; the flag
affects log emission only and never control flow. -/
theorem establish_verbose_flag_no_control_flow
    (options : TypeOrmModuleOptions Entity) (manager : ConnectionManager C E)
    (storedEntities : String → List Entity) (connector : Nat → Except E C)
    (fuel : Nat) (b1 b2 : Bool) :
    (establish { options with verboseRetryLog := b1 } manager storedEntities connector fuel).map
      (fun p => (callEvents p.1, waitEvents p.1, p.2)) =
    (establish { options with verboseRetryLog := b2 } manager storedEntities connector fuel).map
      (fun p => (callEvents p.1, waitEvents p.1, p.2)) := by
  rw [establish, establish,
    show fastPath { options with verboseRetryLog := b1 } manager =
      fastPath options manager from rfl,
    show fastPath { options with verboseRetryLog := b2 } manager =
      fastPath options manager from rfl]
  cases fastPath options manager with
  | some c => rfl
  | none =>
    exact handleRetry_observables (effectiveRetryAttempts options.retryAttempts)
      options.retryDelay (getConnectionName options) connector b1 b2
      (connectionAttemptArg { options with verboseRetryLog := b1 } storedEntities)
      (connectionAttemptArg { options with verboseRetryLog := b2 } storedEntities) fuel 1

/-- C8: with retry delay 0 and a connector that fails before attempt k and
succeeds at attempt k (within the attempt budget), establish resolves with
the k-th connection and every wait in its trace is a zero-length wait (each
retry happens with no waiting period), and for every other delay value the
final outcome is the same connection, given the identical connector. -/
theorem establish_zero_delay_immediate
    (options : TypeOrmModuleOptions Entity) (manager : ConnectionManager C E)
    (storedEntities : String → List Entity) (connector : Nat → Except E C)
    (hdelay : options.retryDelay = 0)
    (hka : options.keepConnectionAlive = false)
    (k : Nat) (c : C) (hk1 : 1 ≤ k) (hk : connector k = Except.ok c)
    (hbefore : ∀ j, 1 ≤ j → j < k → ∃ e, connector j = Except.error e)
    (hbudget : effectiveRetryAttempts options.retryAttempts = 0 ∨
      k ≤ effectiveRetryAttempts options.retryAttempts)
    (fuel : Nat) (hfuel : k ≤ fuel) :
    (∃ evs, establish options manager storedEntities connector fuel =
        some (evs, Except.ok c) ∧ ∀ w ∈ waitEvents evs, w = 0) ∧
    (∀ d, (establish { options with retryDelay := d } manager storedEntities connector
        fuel).map (fun p => p.2) = some (Except.ok c)) := by
  constructor
  · rw [establish_of_fastPath_none options manager storedEntities connector fuel
      (fastPath_of_not_keepAlive options manager hka)]
    obtain ⟨evs, hrun, -, hwaits⟩ := handleRetry_succeeds
      (effectiveRetryAttempts options.retryAttempts) options.retryDelay
      (getConnectionName options) options.verboseRetryLog connector
      (connectionAttemptArg options storedEntities) k c hk hbefore hbudget
      fuel 1 (le_refl 1) hk1 (by omega)
    refine ⟨evs, hrun, ?_⟩
    rw [hwaits, hdelay]
    intro w hw
    exact List.eq_of_mem_replicate hw
  · intro d
    have hfp : fastPath { options with retryDelay := d } manager = none :=
      fastPath_of_not_keepAlive _ _ hka
    obtain ⟨evs, hrun, -, -⟩ := handleRetry_succeeds
      (effectiveRetryAttempts options.retryAttempts) d (getConnectionName options)
      options.verboseRetryLog connector
      (connectionAttemptArg { options with retryDelay := d } storedEntities) k c hk hbefore
      hbudget fuel 1 (le_refl 1) hk1 (by omega)
    have heq : establish { options with retryDelay := d } manager storedEntities connector
        fuel = some (evs, Except.ok c) := by
      rw [establish_of_fastPath_none { options with retryDelay := d } manager storedEntities
        connector fuel hfp]
      exact hrun
    rw [heq]
    rfl

/-- C4 (amended): for every configuration that does not hit the keep-alive
fast path and whose connection type is set, every connector call of a
completed run is invoked with the options record passed to establish,
with the entity list extended by the entities registered for the
connection token when autoLoadEntities is set, and unchanged otherwise.
(When the connection type is unset the connector is instead invoked with
no argument at all; see the counterexample to the unamended claim.) -/
theorem establish_forwards_configuration
    (options : TypeOrmModuleOptions Entity) (manager : ConnectionManager C E)
    (storedEntities : String → List Entity) (connector : Nat → Except E C)
    (fuel : Nat) (evs : List (RetryEvent (Option (TypeOrmModuleOptions Entity)) E))
    (r : Except (ConnectionError E) C)
    (hmiss : fastPath options manager = none)
    (htype : options.type.isSome = true)
    (h : establish options manager storedEntities connector fuel = some (evs, r)) :
    ∀ a ∈ callArgs evs,
      a = some (if options.autoLoadEntities
        then { options with
               entities := some (options.entities.getD [] ++
                 storedEntities (getConnectionName options)) }
        else options) := by
  rw [establish_of_fastPath_none options manager storedEntities connector fuel hmiss] at h
  have harg := handleRetry_callArgs (effectiveRetryAttempts options.retryAttempts)
    options.retryDelay (getConnectionName options) options.verboseRetryLog connector
    (connectionAttemptArg options storedEntities) fuel 1 evs r h
  have hval : connectionAttemptArg options storedEntities =
      some (if options.autoLoadEntities
        then { options with
               entities := some (options.entities.getD [] ++
                 storedEntities (getConnectionName options)) }
        else options) := by
    obtain ⟨t, ht⟩ := Option.isSome_iff_exists.mp htype
    rw [connectionAttemptArg, ht]
    by_cases hal : options.autoLoadEntities
    · rw [hal]
      cases he : options.entities with
      | some es => simp [he]
      | none => simp [he]
    · rw [Bool.eq_false_iff.mpr hal]
      simp [hal]
  intro a ha
  rw [harg a ha, hval]

end ClaimTheorems

section Demo

/-- A demo options record exercising the autoLoadEntities entity merge,
with a bounded budget of 3 attempts and a delay of 5. -/
def demoOptions : TypeOrmModuleOptions Nat :=
  { type := some "postgres", name := none, entities := some [1, 2],
    autoLoadEntities := true, retryAttempts := some 3, retryDelay := 5,
    verboseRetryLog := false, keepConnectionAlive := false }

/-- A demo options record with the connection type left unset and a
single-attempt budget. -/
def typelessOptions : TypeOrmModuleOptions Nat :=
  { type := none, name := none, entities := none,
    autoLoadEntities := false, retryAttempts := some 1, retryDelay := 0,
    verboseRetryLog := false, keepConnectionAlive := false }

/-- A demo options record with an unlimited retry budget (unset) and a
zero delay. -/
def unlimitedOptions : TypeOrmModuleOptions Nat :=
  { type := some "postgres", name := some "second", entities := none,
    autoLoadEntities := false, retryAttempts := none, retryDelay := 0,
    verboseRetryLog := false, keepConnectionAlive := false }

/-- A demo options record requesting keep-alive. -/
def keepAliveOptions : TypeOrmModuleOptions Nat :=
  { type := some "postgres", name := none, entities := none,
    autoLoadEntities := false, retryAttempts := some 2, retryDelay := 1,
    verboseRetryLog := false, keepConnectionAlive := true }

/-- Demo entity storage: entity 7 is registered for every connection
token. -/
def demoStorage : String → List Nat := fun _ => [7]

/-- A connector failing on every call, raising the attempt number. -/
def failingConnector : Nat → Except Nat Nat := fun j => Except.error j

/-- A connector failing on attempt 1 and succeeding on attempt 2 with
connection 99. -/
def secondTryConnector : Nat → Except Nat Nat :=
  fun j => if j = 2 then Except.ok 99 else Except.error j

/-- A registry with no connections. -/
def emptyManager : ConnectionManager Nat Nat :=
  { has := fun _ => Except.ok false, get := fun _ => Except.error 0 }

/-- A registry holding an open connection (handle 42) under every name. -/
def openManager : ConnectionManager Nat Nat :=
  { has := fun _ => Except.ok true, get := fun _ => Except.ok ⟨42, Except.ok true⟩ }

/-- A registry holding a disconnected connection under every name. -/
def staleManager : ConnectionManager Nat Nat :=
  { has := fun _ => Except.ok true, get := fun _ => Except.ok ⟨42, Except.ok false⟩ }

/-- A registry whose accessors throw error 13. -/
def throwingManager : ConnectionManager Nat Nat :=
  { has := fun _ => Except.error 13, get := fun _ => Except.error 13 }

/-- The trace of running demoOptions against the always-failing connector
for its full 3-attempt budget. -/
def demoRunTrace : List (RetryEvent (Option (TypeOrmModuleOptions Nat)) Nat) :=
  [RetryEvent.call 1 (connectionAttemptArg demoOptions demoStorage),
   RetryEvent.wait 5,
   RetryEvent.log "default" 1 none,
   RetryEvent.call 2 (connectionAttemptArg demoOptions demoStorage),
   RetryEvent.wait 5,
   RetryEvent.log "default" 2 none,
   RetryEvent.call 3 (connectionAttemptArg demoOptions demoStorage)]

/-- The trace of running typelessOptions (single-attempt budget) against
the always-failing connector: one call with no argument. -/
def typelessRunTrace : List (RetryEvent (Option (TypeOrmModuleOptions Nat)) Nat) :=
  [RetryEvent.call 1 none]

end Demo

section CounterexampleAndWitnesses

/-- C4 counterexample: a configuration with no connection type set does
not hit the fast path, yet its (single) connector call carries `none`: the
connector is invoked with no argument, and `none` is not the options
record (nor any options record), refuting the claim that every attempt
forwards the options record to the connector. -/
theorem establish_forwards_configuration_counterexample :
    fastPath typelessOptions emptyManager = none ∧
    establish typelessOptions emptyManager demoStorage failingConnector 1 =
      some (typelessRunTrace, Except.error ⟨1⟩) ∧
    callArgs typelessRunTrace = [(none : Option (TypeOrmModuleOptions Nat))] ∧
    ∀ o : TypeOrmModuleOptions Nat,
      (none : Option (TypeOrmModuleOptions Nat)) ≠ some o :=
  ⟨rfl, rfl, rfl, fun _ h => Option.noConfusion h⟩

/-- C1 witness: demoOptions (3 attempts, delay 5) with the always-failing
connector makes attempts 1..3, waits twice, and fails wrapping failure 3. -/
theorem establish_bounded_retry_exhaustion_witness :
    demoOptions.retryAttempts = some 3 ∧ 1 ≤ 3 ∧
    demoOptions.keepConnectionAlive = false ∧
    (∀ j, failingConnector j = Except.error (id j)) ∧ 3 ≤ 4 ∧
    ∃ evs, establish demoOptions emptyManager demoStorage failingConnector 4 =
        some (evs, Except.error ⟨3⟩) ∧
      callEvents evs = List.range' 1 3 ∧
      waitEvents evs = List.replicate 2 demoOptions.retryDelay :=
  ⟨rfl, by decide, rfl, fun _ => rfl, by decide,
    establish_bounded_retry_exhaustion demoOptions emptyManager demoStorage failingConnector
      3 id rfl (by decide) rfl (fun _ => rfl) 4 (by decide)⟩

/-- C2 witness: with an unset budget, the always-failing connector never
completes (fuel 50), and the connector succeeding on attempt 2 resolves
with connection 99. -/
theorem establish_unlimited_retries_witness :
    (unlimitedOptions.retryAttempts = none ∨ unlimitedOptions.retryAttempts = some 0) ∧
    unlimitedOptions.keepConnectionAlive = false ∧
    establish unlimitedOptions emptyManager demoStorage failingConnector 50 = none ∧
    ∃ evs, establish unlimitedOptions emptyManager demoStorage secondTryConnector 5 =
      some (evs, Except.ok 99) :=
  ⟨Or.inl rfl, rfl,
    (establish_unlimited_retries unlimitedOptions emptyManager demoStorage failingConnector
      (Or.inl rfl) rfl).1 (fun j => ⟨j, rfl⟩) 50,
    (establish_unlimited_retries unlimitedOptions emptyManager demoStorage secondTryConnector
      (Or.inl rfl) rfl).2 2 99 (by decide) rfl
      (fun j h1 h2 => ⟨j, by simp only [secondTryConnector]; rw [if_neg (by omega)]⟩)
      5 (by decide)⟩

/-- C3 witness: keep-alive options against a registry holding an open
connection 42 return it immediately with an empty trace. -/
theorem establish_keepAlive_fast_path_witness :
    keepAliveOptions.keepConnectionAlive = true ∧
    openManager.has (getConnectionName keepAliveOptions) = Except.ok true ∧
    openManager.get (getConnectionName keepAliveOptions) =
      Except.ok ⟨42, Except.ok true⟩ ∧
    establish keepAliveOptions openManager demoStorage failingConnector 3 =
      some ([], Except.ok 42) :=
  ⟨rfl, rfl, rfl,
    establish_keepAlive_fast_path keepAliveOptions openManager demoStorage failingConnector 3
      ⟨42, Except.ok true⟩ rfl rfl rfl rfl⟩

/-- C4 witness (amended claim): demoOptions with autoLoadEntities set runs
its full budget and every connector call carries the options extended with
the stored entities. -/
theorem establish_forwards_configuration_witness :
    fastPath demoOptions emptyManager = none ∧
    demoOptions.type.isSome = true ∧
    establish demoOptions emptyManager demoStorage failingConnector 3 =
      some (demoRunTrace, Except.error ⟨3⟩) ∧
    ∀ a ∈ callArgs demoRunTrace,
      a = some (if demoOptions.autoLoadEntities
        then { demoOptions with
               entities := some (demoOptions.entities.getD [] ++
                 demoStorage (getConnectionName demoOptions)) }
        else demoOptions) :=
  ⟨rfl, rfl, rfl,
    establish_forwards_configuration demoOptions emptyManager demoStorage failingConnector 3
      demoRunTrace (Except.error ⟨3⟩) rfl rfl rfl⟩

/-- C5 witness: with an unset budget and the connector succeeding on
attempt 2, establish resolves with connection 99 after exactly calls 1
and 2. -/
theorem establish_unlimited_succeeds_kth_witness :
    (unlimitedOptions.retryAttempts = none ∨ unlimitedOptions.retryAttempts = some 0) ∧
    secondTryConnector 2 = Except.ok 99 ∧
    ∃ evs, establish unlimitedOptions emptyManager demoStorage secondTryConnector 2 =
        some (evs, Except.ok 99) ∧ callEvents evs = List.range' 1 2 :=
  ⟨Or.inl rfl, rfl,
    establish_unlimited_succeeds_kth unlimitedOptions emptyManager demoStorage
      secondTryConnector (Or.inl rfl) rfl 2 99 (by decide) rfl
      (fun j h1 h2 => ⟨j, by simp only [secondTryConnector]; rw [if_neg (by omega)]⟩)
      2 (le_refl 2)⟩

/-- C7 witness: a completed run of typelessOptions with the always-failing
connector has the all-or-nothing shape: its error wraps the failure of its
last (and only) connector call. -/
theorem establish_all_or_nothing_witness :
    establish typelessOptions emptyManager demoStorage failingConnector 1 =
      some (typelessRunTrace, Except.error ⟨1⟩) ∧
    ((∃ c, (Except.error ⟨1⟩ : Except (ConnectionError Nat) Nat) = Except.ok c ∧
      (fastPath typelessOptions emptyManager = some c ∨
        ∃ i, i ∈ callEvents typelessRunTrace ∧ failingConnector i = Except.ok c)) ∨
    (∃ e m, (Except.error ⟨1⟩ : Except (ConnectionError Nat) Nat) = Except.error ⟨e⟩ ∧
      m ∈ callEvents typelessRunTrace ∧
      (∀ j ∈ callEvents typelessRunTrace, j ≤ m) ∧
      failingConnector m = Except.error e)) :=
  ⟨rfl,
    establish_all_or_nothing typelessOptions emptyManager demoStorage failingConnector 1
      typelessRunTrace (Except.error ⟨1⟩) rfl⟩

/-- C8 witness: unlimitedOptions (delay 0) with the connector succeeding
on attempt 2: the run succeeds with only zero-length waits, and any other
delay value yields the same outcome. -/
theorem establish_zero_delay_immediate_witness :
    unlimitedOptions.retryDelay = 0 ∧
    unlimitedOptions.keepConnectionAlive = false ∧
    ((∃ evs, establish unlimitedOptions emptyManager demoStorage secondTryConnector 4 =
        some (evs, Except.ok 99) ∧ ∀ w ∈ waitEvents evs, w = 0) ∧
    (∀ d, (establish { unlimitedOptions with retryDelay := d } emptyManager demoStorage
        secondTryConnector 4).map (fun p => p.2) = some (Except.ok 99))) :=
  ⟨rfl, rfl,
    establish_zero_delay_immediate unlimitedOptions emptyManager demoStorage
      secondTryConnector rfl rfl 2 99 (by decide) rfl
      (fun j h1 h2 => ⟨j, by simp only [secondTryConnector]; rw [if_neg (by omega)]⟩)
      (Or.inl rfl) 4 (by decide)⟩

/-- C9 witness: keep-alive options against a registry whose connection 42
reports not connected: the fast path yields nothing and establish is the
retry loop, whose completed runs open with connector call 1. -/
theorem establish_stale_connection_skips_fast_path_witness :
    keepAliveOptions.keepConnectionAlive = true ∧
    staleManager.has (getConnectionName keepAliveOptions) = Except.ok true ∧
    staleManager.get (getConnectionName keepAliveOptions) =
      Except.ok ⟨42, Except.ok false⟩ ∧
    (fastPath keepAliveOptions staleManager = none ∧
     establish keepAliveOptions staleManager demoStorage failingConnector 2 =
       handleRetry (effectiveRetryAttempts keepAliveOptions.retryAttempts)
         keepAliveOptions.retryDelay (getConnectionName keepAliveOptions)
         keepAliveOptions.verboseRetryLog failingConnector
         (connectionAttemptArg keepAliveOptions demoStorage) 2 1 ∧
     (∀ evs r, establish keepAliveOptions staleManager demoStorage failingConnector 2 =
        some (evs, r) →
       ∃ rest, evs =
         RetryEvent.call 1 (connectionAttemptArg keepAliveOptions demoStorage) :: rest)) :=
  ⟨rfl, rfl, rfl,
    establish_stale_connection_skips_fast_path keepAliveOptions staleManager demoStorage
      failingConnector 2 ⟨42, Except.ok false⟩ rfl rfl rfl rfl⟩

/-- C10 witness: keep-alive options against a registry whose has accessor
throws error 13: the error is swallowed, the fast path yields nothing and
establish is the retry loop. -/
theorem establish_swallows_registry_errors_witness :
    keepAliveOptions.keepConnectionAlive = true ∧
    throwingManager.has (getConnectionName keepAliveOptions) = Except.error 13 ∧
    (fastPath keepAliveOptions throwingManager = none ∧
     establish keepAliveOptions throwingManager demoStorage failingConnector 2 =
       handleRetry (effectiveRetryAttempts keepAliveOptions.retryAttempts)
         keepAliveOptions.retryDelay (getConnectionName keepAliveOptions)
         keepAliveOptions.verboseRetryLog failingConnector
         (connectionAttemptArg keepAliveOptions demoStorage) 2 1) :=
  ⟨rfl, rfl,
    establish_swallows_registry_errors keepAliveOptions throwingManager demoStorage
      failingConnector 2 rfl (Or.inl ⟨13, rfl⟩)⟩

end CounterexampleAndWitnesses

end NestTypeormI18n
